import Mathlib

/-!
Shallow embedding of the ModeOpt trajectory-optimisation core
(`modeopt/rollouts.py`, `modeopt/dynamics/multimodal.py`,
`modeopt/dynamics/conditionals.py`, `modeopt/trajectories/base.py`,
`modeopt/trajectory_optimisers/{variational,explorative}.py`).

Scalars are modelled as `ℚ`.  Tensors handled only through external
numerical capabilities (kernels, Cholesky factorisation, expectation
integrals, tensorflow linear algebra) are modelled by an abstract type
together with an environment of operations, mirroring the boundary the
code itself draws around gpflow / tensorflow.  Python exceptions are
modelled with `Except PyErr`; a Python attribute that may not yet be
assigned on an object is an `Option` field, and reading it goes through
`getattr`.
-/

/-- Python exceptions that the modelled code can raise. -/
inductive PyErr where
  | attributeError : String → PyErr
  | assertionError : PyErr
  | nameError : String → PyErr
  | indexError : PyErr
  | notImplementedError : String → PyErr
  | invalidArgumentError : String → PyErr
  | valueError : String → PyErr
deriving DecidableEq, Repr

/-- Reading attribute `name` from a Python object: the field is `none`
when the attribute was never assigned, in which case Python raises
`AttributeError`. -/
def getattr {α : Type} (field : Option α) (name : String) : Except PyErr α :=
  match field with
  | some a => Except.ok a
  | none => Except.error (PyErr.attributeError name)

/-- Equality of modelled Python results is decidable when both payloads
are. -/
instance {ε α : Type} [DecidableEq ε] [DecidableEq α] :
    DecidableEq (Except ε α) := fun a b =>
  match a, b with
  | Except.ok x, Except.ok y =>
    if h : x = y then Decidable.isTrue (by rw [h])
    else Decidable.isFalse (fun hc => h (Except.ok.inj hc))
  | Except.ok _, Except.error _ =>
    Decidable.isFalse (fun hc => Except.noConfusion hc)
  | Except.error _, Except.ok _ =>
    Decidable.isFalse (fun hc => Except.noConfusion hc)
  | Except.error e, Except.error f =>
    if h : e = f then Decidable.isTrue (by rw [h])
    else Decidable.isFalse (fun hc => h (Except.error.inj hc))

/-- Python list indexing `l[i]` with an `int` index: non-negative indices
count from the front, negative indices from the back, anything further
out raises `IndexError` (modelled as `none`). -/
def pyGetElem {α : Type} (l : List α) (i : ℤ) : Option α :=
  if 0 ≤ i then l.get? i.toNat
  else if -(l.length : ℤ) ≤ i then l.get? ((l.length : ℤ) + i).toNat
  else none

namespace ModeOpt

/-! ## Rollout engine (`modeopt/rollouts.py`)

A Gaussian state belief at one timestep (one row of the `state_means` /
`state_vars` tensors) is an abstract type `S`; a control belief row is
`C`.  `tf.concat([...], 0)` of single-row results is list `cons`; the
slice `state_means[-1:, :]` is the last element, carried through the
loop.  `dynamics` is the per-step transition callable
`(state_mean, control_mean, state_var, control_var) ↦ (next_mean, next_var)`
(for `ModeOptDynamics` it delegates to the selected expert's SVGP, an
external capability). -/

/-- The `for t in range(horizon)` loop of `rollout_controls_in_dynamics`:
consumes the remaining control means, looks the control variance up at
the current timestep `t`, applies `dynamics` to the last state belief and
returns the freshly appended rows (in order). -/
def rolloutControlsGo {S C : Type} (dynamics : S → C → S → Option C → S × S)
    (controlVarAt : ℕ → Option C) :
    List C → ℕ → S → S → List S × List S
  | [], _, _, _ => ([], [])
  | c :: cs, t, lastMean, lastVar =>
    let next := dynamics lastMean c lastVar (controlVarAt t)
    let rest := rolloutControlsGo dynamics controlVarAt cs (t + 1) next.1 next.2
    (next.1 :: rest.1, next.2 :: rest.2)

/-- `rollout_controls_in_dynamics(dynamics, start_state, control_means,
start_state_var=None, control_vars=None)`: horizon is the number of
control means; a missing `start_state_var` defaults to
`tf.zeros((1, state_dim))`, modelled by `zeroLike` applied to the start
state. -/
def rollout_controls_in_dynamics {S C : Type}
    (dynamics : S → C → S → Option C → S × S) (zeroLike : S → S)
    (start_state : S) (control_means : List C)
    (start_state_var : Option S) (control_vars : Option (List C)) :
    List S × List S :=
  let sv := start_state_var.getD (zeroLike start_state)
  let controlVarAt : ℕ → Option C := fun t => control_vars.bind (fun l => l.get? t)
  let appended := rolloutControlsGo dynamics controlVarAt control_means 0 start_state sv
  (start_state :: appended.1, sv :: appended.2)

/-- A policy object as used by the rollout and the trajectory optimisers
(`modeopt.policies.VariationalPolicy`, an external collaborator):
callable at a timestep index giving `(control_mean, control_var)`,
callable with no argument giving the stacked control means/variances,
with an entropy and trainable parameters. -/
structure PolicyObj (C : Type) where
  num_time_steps : ℕ
  callIdx : ℕ → C × Option C
  callFull : C × C
  entropy : ℚ

/-- The `for t in range(policy.num_time_steps)` loop of
`rollout_policy_in_dynamics`, recursing on the number of remaining
steps. -/
def rolloutPolicyGo {S C : Type} (dynamics : S → C → S → Option C → S × S)
    (policy : PolicyObj C) :
    ℕ → ℕ → S → S → List S × List S
  | 0, _, _, _ => ([], [])
  | remaining + 1, t, lastMean, lastVar =>
    let c := policy.callIdx t
    let next := dynamics lastMean c.1 lastVar c.2
    let rest := rolloutPolicyGo dynamics policy remaining (t + 1) next.1 next.2
    (next.1 :: rest.1, next.2 :: rest.2)

/-- `rollout_policy_in_dynamics(policy, dynamics, start_state,
start_state_var=None)`. -/
def rollout_policy_in_dynamics {S C : Type}
    (policy : PolicyObj C) (dynamics : S → C → S → Option C → S × S)
    (zeroLike : S → S)
    (start_state : S) (start_state_var : Option S) :
    List S × List S :=
  let sv := start_state_var.getD (zeroLike start_state)
  let appended := rolloutPolicyGo dynamics policy policy.num_time_steps 0 start_state sv
  (start_state :: appended.1, sv :: appended.2)

/-! ## Uncertain conditional engine (`modeopt/dynamics/conditionals.py`,
`uncertain_conditional`)

Tensors are an abstract type `T`; every tensorflow / gpflow numerical
operation the function body uses is a field of `TensorOps` / `GPEnv`
(kernel evaluation, Cholesky factorisation and the expectation integrals
are external capabilities per the boundary the code draws).  The body
chains them in source order; the only control flow is the `full_cov`
guard, the `white` branch, the mean-function branch and the
`full_output_cov` branch. -/

/-- The tensorflow linear-algebra operations used by
`uncertain_conditional`, in source order of first use. -/
structure TensorOps (T : Type) where
  bandPartLower : T → T
  transpose : T → T
  cholesky : T → T
  triangularSolve : T → T → T
  triangularSolveAdjoint : T → T → T
  tile : T → T
  matmulTransposeA : T → T → T
  matmulTransposeB : T → T → T
  adjoint : T → T
  add : T → T → T
  sub : T → T → T
  traceLast : T → T
  diag : T → T
  diagPart : T → T
  expandAndTile : T → T
  reshapeNQM : T → T
  einsum_nij_dji_nd : T → T → T
  einsum_ig_nij_jh_ngh : T → T → T → T
  einsum_nqm_mz_nqz : T → T → T
  outerLastTwo : T → T → T
  square : T → T
  zerosNFF : T

/-- The gpflow capabilities used by `uncertain_conditional`: expectation
integrals against the Gaussian `p(Xnew) = N(Xnew_mu, Xnew_var)` (psi
statistics and mean-function expectations), the inducing-point kernel
matrix `Kuu` (with its fixed jitter already added), and the test telling
the `Zero` mean function apart. -/
structure GPEnv (T MF K IV : Type) where
  ops : TensorOps T
  expectation_k : T → T → K → T
  expectation_kZ : T → T → K → IV → T
  expectation_kZ_kZ : T → T → K → IV → T
  expectation_mf : T → T → MF → T
  expectation_mf_mf : T → T → MF → MF → T
  expectation_mf_kZ : T → T → MF → K → IV → T
  Kuu : IV → K → T
  isZeroMeanFn : MF → Bool

/-- `uncertain_conditional(Xnew_mu, Xnew_var, inducing_variable, kernel,
q_mu, q_sqrt, *, mean_function=None, full_output_cov=False,
full_cov=False, white=False)` from `modeopt/dynamics/conditionals.py`.
Raises `NotImplementedError` when `full_cov` is requested, before any
computation; otherwise moment-matches through the psi statistics and
returns `(fmean, fvar)`. -/
def uncertain_conditional {T MF K IV : Type} (env : GPEnv T MF K IV)
    (Xnew_mu Xnew_var : T) (inducing_variable : IV) (kernel : K)
    (q_mu q_sqrt : T) (mean_function : Option MF)
    (full_output_cov full_cov white : Bool) :
    Except PyErr (T × T) :=
  if full_cov then
    Except.error (PyErr.notImplementedError
      "uncertain_conditional() currently does not support full_cov=True")
  else
    let o := env.ops
    let q_sqrt_r0 := o.bandPartLower q_sqrt
    let eKuf := o.transpose (env.expectation_kZ Xnew_mu Xnew_var kernel inducing_variable)
    let Kuu := env.Kuu inducing_variable kernel
    let Luu := o.cholesky Kuu
    let q_mu1 := if white then q_mu else o.triangularSolve Luu q_mu
    let q_sqrt_r := if white then q_sqrt_r0
      else o.triangularSolve (o.tile Luu) q_sqrt_r0
    let Li_eKuf := o.triangularSolve Luu eKuf
    let fmean0 := o.matmulTransposeA Li_eKuf q_mu1
    let eKff := env.expectation_k Xnew_mu Xnew_var kernel
    let eKuffu := env.expectation_kZ_kZ Xnew_mu Xnew_var kernel inducing_variable
    let Li_eKuffu := o.triangularSolve (o.tile Luu) eKuffu
    let Li_eKuffu_Lit := o.triangularSolve (o.tile Luu) (o.adjoint Li_eKuffu)
    let covq := o.matmulTransposeB q_sqrt_r q_sqrt_r
    let mfBranch :=
      match mean_function with
      | none => (fmean0, o.zerosNFF)
      | some mf =>
        if env.isZeroMeanFn mf then (fmean0, o.zerosNFF)
        else
          let fmean1 := o.add fmean0 (env.expectation_mf Xnew_mu Xnew_var mf)
          let e_mean_mean := env.expectation_mf_mf Xnew_mu Xnew_var mf mf
          let Lit_q_mu := o.triangularSolveAdjoint Luu q_mu1
          let e_mean_Kuf0 := env.expectation_mf_kZ Xnew_mu Xnew_var mf kernel inducing_variable
          let e_mean_Kuf := o.reshapeNQM e_mean_Kuf0
          let e_fmean_mean := o.einsum_nqm_mz_nqz e_mean_Kuf Lit_q_mu
          (fmean1, o.add (o.add e_fmean_mean (o.adjoint e_fmean_mean)) e_mean_mean)
    let fmean := mfBranch.1
    let e_related_to_mean := mfBranch.2
    let fvar :=
      if full_output_cov then
        o.add
          (o.sub
            (o.add
              (o.add (o.diag (o.expandAndTile (o.sub eKff (o.traceLast Li_eKuffu_Lit))))
                (o.diag (o.einsum_nij_dji_nd Li_eKuffu_Lit covq)))
              (o.einsum_ig_nij_jh_ngh q_mu1 Li_eKuffu_Lit q_mu1))
            (o.outerLastTwo fmean fmean))
          e_related_to_mean
      else
        o.add
          (o.sub
            (o.add
              (o.add (o.expandAndTile (o.sub eKff (o.traceLast Li_eKuffu_Lit)))
                (o.einsum_nij_dji_nd Li_eKuffu_Lit covq))
              (o.einsum_ig_nij_jh_ngh q_mu1 Li_eKuffu_Lit q_mu1))
            (o.square fmean))
          (o.diagPart e_related_to_mean)
    Except.ok (fmean, fvar)

/-! ## Mode dynamics wrapper (`modeopt/dynamics/multimodal.py`)

`ModeOptDynamics` is a plain Python object whose attributes appear one
by one as `__init__` runs; each instance attribute is therefore an
`Option` field read through `getattr`.  A sparse-variational GP (the
gating network, `mogpe`'s `SVGP`) carries its variational parameters
plus its two external capabilities (`predict_f` and the likelihood's
`variational_expectations`). -/

/-- The gating network GP (a `gpflow`-style SVGP owned by the
mixture-of-experts model): variational parameters plus the external
`predict_f` and likelihood `variational_expectations` capabilities. -/
structure SVGPModel (T MF K IV : Type) where
  inducing_variable : IV
  kernel : K
  q_mu : T
  q_sqrt : T
  mean_function : MF
  whiten : Bool
  predict_f : T → Bool → T × T
  likelihood_variational_expectations : T → T → T → T

/-- `mogpe.mixture_of_experts.MixtureOfSVGPExperts`: the list of expert
GPs and the gating network; `num_experts` is the number of experts. -/
structure MixtureOfSVGPExperts (T MF K IV E : Type) where
  experts_list : List E
  gating_network : SVGPModel T MF K IV

def MixtureOfSVGPExperts.num_experts {T MF K IV E : Type}
    (m : MixtureOfSVGPExperts T MF K IV E) : ℕ :=
  m.experts_list.length

/-- `modeopt.dynamics_new.SVGPDynamics`: wraps one expert GP, with an
optional nominal-dynamics offset. -/
structure SVGPDynamics (E ND : Type) where
  gp : E
  nominal_dynamics : Option ND

/-- The attribute state of a `ModeOptDynamics` Python object.  A `none`
field is an attribute that has not been assigned (reading it raises
`AttributeError`).  Note the source's spelling `_desied_mode`, and that
`mosvgpe` is read by `set_desired_mode` but assigned nowhere:
`__init__` stores the model under `trainable_model` instead. -/
structure ModeOptDynamicsObj (T MF K IV E ND Opt : Type) where
  trainable_model : Option (MixtureOfSVGPExperts T MF K IV E)
  mosvgpe : Option (MixtureOfSVGPExperts T MF K IV E)
  _desied_mode : Option ℤ
  _desired_mode_dynamics : Option (SVGPDynamics E ND)
  dynamics_gp : Option E
  desired_mode_dynamics : Option (SVGPDynamics E ND)
  gating_gp : Option (SVGPModel T MF K IV)
  optimizer : Option Opt

namespace ModeOptDynamics

variable {T MF K IV E ND Opt : Type}

/-- `ModeOptDynamics.set_desired_mode(self, desired_mode)`: reads
`self.mosvgpe`, asserts `desired_mode < num_experts`, then selects
`experts_list[desired_mode]` (Python indexing: negative indices count
from the back) and stores the mode index and the wrapped single-expert
dynamics.  (In Python the index assignment happens before the list
lookup, so an `IndexError` would leave a partial mutation behind; no
claim depends on that partial state, so the model returns the error
without it.) -/
def set_desired_mode (s : ModeOptDynamicsObj T MF K IV E ND Opt)
    (desired_mode : ℤ) :
    Except PyErr (ModeOptDynamicsObj T MF K IV E ND Opt) := do
  let m ← getattr s.mosvgpe "mosvgpe"
  if desired_mode < (m.num_experts : ℤ) then
    match pyGetElem m.experts_list desired_mode with
    | some dynamics_gp =>
      Except.ok { s with _desied_mode := some desired_mode,
                         _desired_mode_dynamics := some ⟨dynamics_gp, none⟩ }
    | none => Except.error PyErr.indexError
  else
    Except.error PyErr.assertionError

/-- `ModeOptDynamics.__init__`: starts from an object with no instance
attributes, stores the mixture model under `trainable_model`, then calls
`set_desired_mode` (which reads the never-assigned `mosvgpe`), then
would build `desired_mode_dynamics` from the likewise never-assigned
`dynamics_gp` and store the gating network and optimizer. -/
def init (mosvgpe : MixtureOfSVGPExperts T MF K IV E) (desired_mode : ℤ)
    (nominal_dynamics : ND) (state_dim control_dim : ℕ) (optimizer : Opt) :
    Except PyErr (ModeOptDynamicsObj T MF K IV E ND Opt) := do
  let _ := state_dim
  let _ := control_dim
  let s0 : ModeOptDynamicsObj T MF K IV E ND Opt :=
    ⟨none, none, none, none, none, none, none, none⟩
  let s1 := { s0 with trainable_model := some mosvgpe }
  let s2 ← set_desired_mode s1 desired_mode
  let dyn_gp ← getattr s2.dynamics_gp "dynamics_gp"
  let s3 := { s2 with desired_mode_dynamics := some ⟨dyn_gp, some nominal_dynamics⟩ }
  let tm ← getattr s3.trainable_model "trainable_model"
  let s4 := { s3 with gating_gp := some tm.gating_network, optimizer := some optimizer }
  Except.ok s4

end ModeOptDynamics

/-- The tensorflow operations `ModeOptDynamics`' gating computations use
on top of `GPEnv`: last-axis concatenation of state and control rows,
`tf.ones(shape) * desired_mode`, and `tf.reduce_sum` to a scalar. -/
structure GatingEnv (T MF K IV : Type) where
  gp : GPEnv T MF K IV
  concatLast : T → T → T
  onesTimes : T → ℤ → T
  reduceSum : T → ℚ

namespace ModeOptDynamics

variable {T MF K IV E ND Opt : Type}

/-- `ModeOptDynamics.uncertain_predict_gating`: concatenates state and
control, then either the gating GP's plain `predict_f` (when either
variance is `None`) or the uncertain conditional with the gating GP's
variational parameters (`full_output_cov=False`, `full_cov=False`). -/
def uncertain_predict_gating (env : GatingEnv T MF K IV)
    (s : ModeOptDynamicsObj T MF K IV E ND Opt)
    (state_mean control_mean : T) (state_var control_var : Option T) :
    Except PyErr (T × T) := do
  let g ← getattr s.gating_gp "gating_gp"
  let input_mean := env.concatLast state_mean control_mean
  match state_var, control_var with
  | some sv, some cv =>
    let input_var := env.concatLast sv cv
    uncertain_conditional env.gp input_mean input_var g.inducing_variable
      g.kernel g.q_mu g.q_sqrt (some g.mean_function) false false g.whiten
  | _, _ => Except.ok (g.predict_f input_mean false)

/-- `ModeOptDynamics.mode_variational_expectation`: predicts the gating
function distribution, builds the synthetic target
`Y = ones * self.desired_mode` (the `desired_mode` property reads
`_desied_mode`), applies the gating likelihood's
`variational_expectations` and sums.  Returned together with the object
state after the call, which the method never mutates. -/
def mode_variational_expectation (env : GatingEnv T MF K IV)
    (s : ModeOptDynamicsObj T MF K IV E ND Opt)
    (state_mean control_mean : T) (state_var control_var : Option T) :
    Except PyErr (ℚ × ModeOptDynamicsObj T MF K IV E ND Opt) := do
  let gating ← uncertain_predict_gating env s state_mean control_mean state_var control_var
  let dm ← getattr s._desied_mode "_desied_mode"
  let g ← getattr s.gating_gp "gating_gp"
  let Y := env.onesTimes gating.1 dm
  let gating_var_exp := g.likelihood_variational_expectations gating.1 gating.2 Y
  Except.ok (env.reduceSum gating_var_exp, s)

end ModeOptDynamics

/-! ## Trajectory base class (`modeopt/trajectories/base.py`) -/

/-- `BaseTrajectory`: its `controls` property (the stacked control
means, type `CT`) is what both call paths return. -/
structure BaseTrajectory (CT : Type) where
  controls : CT

/-- `BaseTrajectory.__call__(self, timestep=None, variance=False)`:
`if variance: return self.controls, None` else `return self.controls`.
The union return type (`ControlTrajectory` = means with variances,
`ControlTrajectoryMean` = means alone) is a sum. -/
def BaseTrajectory.callTimestep {CT : Type} (tr : BaseTrajectory CT)
    (timestep : Option ℕ) (variance : Bool) : CT ⊕ (CT × Option CT) :=
  let _ := timestep
  if variance then Sum.inr (tr.controls, none) else Sum.inl tr.controls

/-- `BaseTrajectory.call(self, input)`. -/
def BaseTrajectory.call {CT I : Type} (tr : BaseTrajectory CT) (input : I) : CT :=
  let _ := input
  tr.controls

/-! ## Variational trajectory optimisers
(`modeopt/trajectory_optimisers/variational.py`)

The per-step transition used by the rollout, the expected-cost
computation (`modeopt.cost_functions.expected_quadratic_costs`, an
external collaborator) and the policy are carried by the optimiser
model.  `stack` rebuilds the tensor from the rollout's rows, so the
slice `state_means[:-1, :]` is `stack` of `dropLast`. -/

/-- The names bound at module level in
`modeopt/trajectory_optimisers/variational.py` (its imports, type
aliases and class definitions).  The cost helper imported from
`modeopt.cost_functions` is `expected_quadratic_costs`; no name
`expected_costs` is bound. -/
def variationalModuleNames : List String :=
  ["typing", "dataclass", "Callable", "gpf", "ttf", "tf", "GPDynamics",
   "expected_quadratic_costs", "VariationalPolicy",
   "VariationalGaussianPolicy", "DeterministicPolicy",
   "rollout_policy_in_dynamics", "TrajectoryOptimiser", "axes", "Batch",
   "StateDim", "ControlDim",
   "VariationalTrajectoryOptimiserTrainingSpec",
   "ModeVariationalTrajectoryOptimiserTrainingSpec",
   "VariationalTrajectoryOptimiser", "ModeVariationalTrajectoryOptimiser"]

/-- A variational trajectory optimiser: the policy, the dynamics (its
per-step transition callable for the rollout, and the full
`ModeOptDynamics` object for the mode term), the gating environment and
the external `expected_quadratic_costs` collaborator. -/
structure VTOModel (T MF K IV E ND Opt : Type) where
  policy : PolicyObj T
  dynamicsStep : T → T → T → Option T → T × T
  dynamicsObj : ModeOptDynamicsObj T MF K IV E ND Opt
  env : GatingEnv T MF K IV
  expected_quadratic_costs : List T → List T → PolicyObj T → List ℚ × ℚ
  zeroLike : T → T
  stack : List T → T

namespace VariationalTrajectoryOptimiser

variable {T MF K IV E ND Opt : Type}

/-- `VariationalTrajectoryOptimiser.elbo`: entropy, policy rollout, then
the body calls the module-level name `expected_costs` — which
`variational.py` never binds (it imports `expected_quadratic_costs`), so
evaluation raises `NameError`.  (If the name were bound, lines 171–173
would produce `-terminal - Σ running - entropy`.) -/
def elbo (o : VTOModel T MF K IV E ND Opt) (start_state : T)
    (start_state_var : Option T) : Except PyErr ℚ :=
  let entropy := o.policy.entropy
  let rolled := ModeOpt.rollout_policy_in_dynamics o.policy o.dynamicsStep
    o.zeroLike start_state start_state_var
  if "expected_costs" ∈ variationalModuleNames then
    let costs := o.expected_quadratic_costs rolled.1 rolled.2 o.policy
    Except.ok (-costs.2 - costs.1.sum - entropy)
  else
    Except.error (PyErr.nameError "expected_costs")

/-- `VariationalTrajectoryOptimiser.build_training_loss`: a closure
returning `-self.elbo(...)` (the `compile` flag only wraps it in
`tf.function`). -/
def build_training_loss (o : VTOModel T MF K IV E ND Opt) (start_state : T)
    (start_state_var : Option T) (compile : Bool) : Unit → Except PyErr ℚ :=
  let _ := compile
  fun _ => (elbo o start_state start_state_var).map (fun e => -e)

end VariationalTrajectoryOptimiser

namespace ModeVariationalTrajectoryOptimiser

variable {T MF K IV E ND Opt : Type}

/-- `ModeVariationalTrajectoryOptimiser.elbo`: entropy, policy rollout,
`expected_quadratic_costs`, the mode variational expectation on the
sliced trajectory (`state_means[:-1, :]`, the policy's full control
means/variances), combined as
`-mode_var_exp - terminal - Σ running + entropy`. -/
def elbo (o : VTOModel T MF K IV E ND Opt) (start_state : T)
    (start_state_var : Option T) : Except PyErr ℚ := do
  let entropy := o.policy.entropy
  let rolled := ModeOpt.rollout_policy_in_dynamics o.policy o.dynamicsStep
    o.zeroLike start_state start_state_var
  let costs := o.expected_quadratic_costs rolled.1 rolled.2 o.policy
  let ctrl := o.policy.callFull
  let mve ← ModeOptDynamics.mode_variational_expectation o.env o.dynamicsObj
    (o.stack rolled.1.dropLast) ctrl.1 (some (o.stack rolled.2.dropLast)) (some ctrl.2)
  Except.ok (-mve.1 - costs.2 - costs.1.sum + entropy)

/-- The inherited `build_training_loss`, dispatching to the overridden
`elbo`. -/
def build_training_loss (o : VTOModel T MF K IV E ND Opt) (start_state : T)
    (start_state_var : Option T) (compile : Bool) : Unit → Except PyErr ℚ :=
  let _ := compile
  fun _ => (elbo o start_state start_state_var).map (fun e => -e)

end ModeVariationalTrajectoryOptimiser

/-! ## `optimise` and the external optimizer (`variational.py` lines
91–149, `explorative.py` lines 108–154)

The mutable numerical state visible to one `optimise` call: the
dynamics model's parameter values and their trainable flag, and the
policy's parameter values.  `gpf.set_trainable(self.dynamics, False)`
clears the flag; `self.optimiser.minimize(loss, policy_vars, ...)` is
the external optimizer, modelled as an arbitrary function receiving the
loss closure, the state at invocation time and the variables handed
over, and returning new values for exactly those variables plus its
result object. -/

/-- Parameter state of the dynamics model and policy during
`optimise`. -/
structure TrajOptimiserState where
  dynamicsParams : List ℚ
  dynamicsTrainable : Bool
  policyParams : List ℚ
deriving DecidableEq

/-- `gpf.set_trainable(self.dynamics, b)`. -/
def gpfSetTrainable (st : TrajOptimiserState) (b : Bool) : TrajOptimiserState :=
  { st with dynamicsTrainable := b }

/-- Which step callback the `monitor`/`manager` if-chain builds. -/
inductive CallbackKind where
  | monitorAndManager
  | monitorOnly
  | managerOnly
deriving DecidableEq

/-- The `monitor`/`manager` if-chain of `optimise`. -/
def buildCallback (monitor manager : Bool) : Option CallbackKind :=
  if monitor && manager then some CallbackKind.monitorAndManager
  else if monitor then some CallbackKind.monitorOnly
  else if manager then some CallbackKind.managerOnly
  else none

/-- The fields of the training-spec dataclasses the `optimise` bodies
read. -/
structure TrainingSpecFlags where
  max_iterations : ℕ
  monitor : Bool
  manager : Bool
  compile_loss_fn : Bool

/-- The type of the external `gpf.optimizers.Scipy().minimize`
collaborator: loss closure, state at invocation, handed-over variables;
returns the new values of those variables and a result object. -/
def MinimizeFn (R : Type) : Type :=
  (Unit → Except PyErr ℚ) → TrajOptimiserState → List ℚ → List ℚ × R

/-- `VariationalTrajectoryOptimiser.optimise`: freezes the dynamics,
builds the callback and the training loss, hands the loss and
`self.policy.trainable_variables` to the external optimizer, and stores
the updated policy variables. -/
def VariationalTrajectoryOptimiser.optimise {T MF K IV E ND Opt R : Type}
    (o : VTOModel T MF K IV E ND Opt) (minimize : MinimizeFn R)
    (st : TrajOptimiserState) (start_state : T) (spec : TrainingSpecFlags) :
    TrajOptimiserState × R :=
  let st1 := gpfSetTrainable st false
  let _cb := buildCallback spec.monitor spec.manager
  let training_loss := VariationalTrajectoryOptimiser.build_training_loss o
    start_state none spec.compile_loss_fn
  let res := minimize training_loss st1 st1.policyParams
  ({ st1 with policyParams := res.1 }, res.2)

/-- `ExplorativeTrajectoryOptimiser.optimise`: identical freezing and
hand-over, with the exploration objective's loss; the cached
`self._training_loss` is used when present, otherwise the loss closure
is built from `self.objective`. -/
def ExplorativeTrajectoryOptimiser.optimise {R : Type}
    (cached : Option (Unit → Except PyErr ℚ))
    (objective : Unit → Except PyErr ℚ) (minimize : MinimizeFn R)
    (st : TrajOptimiserState) (spec : TrainingSpecFlags) :
    TrajOptimiserState × R :=
  let st1 := gpfSetTrainable st false
  let _cb := buildCallback spec.monitor spec.manager
  let training_loss :=
    match cached with
    | some f => f
    | none => fun u => (objective u).map (fun e => -e)
  let res := minimize training_loss st1 st1.policyParams
  ({ st1 with policyParams := res.1 }, res.2)

/-! ## Covariance-conditional shape validation
(`modeopt/dynamics/conditionals.py`, `base_covariance_conditional`)

The claimed behaviour lives in the shape bookkeeping (lines 223–271):
the axis permutation bringing `M` next to the query axis, and
`tf.debugging.assert_shapes` unifying the named trailing dimensions
`M`, `N1`, `N2`, `R` across `Km1`, `Km2`, `Lm`, `K12`, `f`, `q_sqrt`
while ignoring (`...`) leading batch dimensions.  The model works on
shapes (lists of dimension sizes). -/

/-- A tensor shape: the list of its dimension sizes. -/
abbrev Shape := List ℕ

/-- The dimension names of `base_covariance_conditional`'s
`shape_constraints` (the strings "M", "N1", "N2", "R"). -/
inductive DimName where
  | M
  | N1
  | N2
  | R
deriving DecidableEq

/-- Look a dimension name up among the bindings collected so far. -/
def envLookup : List (DimName × ℕ) → DimName → Option ℕ
  | [], _ => none
  | (k, v) :: rest, n => if k = n then some v else envLookup rest n

/-- Bind one named dimension: must agree with any earlier binding of the
same name. -/
def bindDim (env : List (DimName × ℕ)) (n : DimName) (d : ℕ) :
    Option (List (DimName × ℕ)) :=
  (envLookup env n).elim (some ((n, d) :: env))
    (fun d2 => if d = d2 then some env else none)

/-- Bind a list of named trailing dimensions against the corresponding
sizes (same length required). -/
def bindDims (env : List (DimName × ℕ)) :
    List DimName → Shape → Option (List (DimName × ℕ))
  | [], [] => some env
  | n :: ns, d :: ds => (bindDim env n d).bind (fun e2 => bindDims e2 ns ds)
  | _, _ => none

/-- One entry of the `shape_constraints` list: the tensor's shape, the
named trailing dimensions, and whether a leading `...` allows extra
batch dimensions. -/
structure ShapeConstraint where
  shape : Shape
  dims : List DimName
  allowLeading : Bool

/-- Check one constraint against the current bindings
(`tf.debugging.assert_shapes` semantics: with `...` the rank must be at
least the number of named dimensions and only the trailing ones are
unified; without, the rank must match exactly). -/
def checkConstraint (env : List (DimName × ℕ)) (c : ShapeConstraint) :
    Option (List (DimName × ℕ)) :=
  if c.allowLeading then
    if c.dims.length ≤ c.shape.length then
      bindDims env c.dims (c.shape.drop (c.shape.length - c.dims.length))
    else none
  else
    if c.shape.length = c.dims.length then bindDims env c.dims c.shape
    else none

/-- `tf.debugging.assert_shapes`: all constraints must unify. -/
def assertShapes (env : List (DimName × ℕ)) : List ShapeConstraint → Bool
  | [] => true
  | c :: cs => (checkConstraint env c).elim false (fun e2 => assertShapes e2 cs)

/-- The `tf.transpose(Km, perm)` of `base_covariance_conditional` that
moves axis 0 (the inducing axis `M`) to just before the last axis:
`[M, leading..., N] ↦ [leading..., M, N]`. -/
def tfMoveLeadingAxis (s : Shape) : Shape :=
  match s with
  | [] => []
  | [d] => [d]
  | d0 :: rest => rest.dropLast ++ [d0, rest.getLastD 0]

/-- The shape-validation portion of `base_covariance_conditional(Km1,
Km2, Lm, K12, f, *, q_sqrt=None, white=False)`: permute `Km1`/`Km2`,
then `tf.debugging.assert_shapes` on
`[(Km1, [..., M, N1]), (Km2, [..., M, N2]), (Lm, [M, M]),
(K12, [..., N1, N2]), (f, [M, R])]`, extended for a supplied `q_sqrt`
by `[M, R]` when it has rank 2 and `[R, M, M]` otherwise.  A failed
unification is tensorflow's `InvalidArgumentError`. -/
def base_covariance_conditional_check (Km1 Km2 Lm K12 f : Shape)
    (q_sqrt : Option Shape) : Except PyErr Unit :=
  let Km1t := tfMoveLeadingAxis Km1
  let Km2t := tfMoveLeadingAxis Km2
  let base : List ShapeConstraint :=
    [⟨Km1t, [DimName.M, DimName.N1], true⟩,
     ⟨Km2t, [DimName.M, DimName.N2], true⟩,
     ⟨Lm, [DimName.M, DimName.M], false⟩,
     ⟨K12, [DimName.N1, DimName.N2], true⟩,
     ⟨f, [DimName.M, DimName.R], false⟩]
  let cs := base ++
    (match q_sqrt with
     | none => []
     | some qs =>
       if qs.length = 2 then [⟨qs, [DimName.M, DimName.R], false⟩]
       else [⟨qs, [DimName.R, DimName.M, DimName.M], false⟩])
  if assertShapes [] cs then Except.ok ()
  else Except.error (PyErr.invalidArgumentError "base_conditional() arguments")

/-! ## Spec-side formulations and concrete instances

`claimedModeElbo` transcribes the spec sentence for the mode variant of
the ELBO ("−terminal_cost − Σ(running costs) − policy_entropy ... with
an added mode-variational-expectation term"), over the same modelled
collaborators as the code's `elbo`, for comparison with it.
`amendedModeElboSpec` transcribes the amended sentence ("the mode
variational expectation is subtracted and the policy entropy added").
The `...W` definitions are concrete instances (tensors collapsed to
`ℚ`, opaque collaborators to `Unit`) used to evaluate the development
on closed inputs. -/

/-- The spec's claimed mode-variant objective:
`−terminal − Σ running − entropy + mode_var_exp`. -/
def claimedModeElbo {T MF K IV E ND Opt : Type}
    (o : VTOModel T MF K IV E ND Opt) (start_state : T)
    (start_state_var : Option T) : Except PyErr ℚ := do
  let entropy := o.policy.entropy
  let rolled := ModeOpt.rollout_policy_in_dynamics o.policy o.dynamicsStep
    o.zeroLike start_state start_state_var
  let costs := o.expected_quadratic_costs rolled.1 rolled.2 o.policy
  let ctrl := o.policy.callFull
  let mve ← ModeOptDynamics.mode_variational_expectation o.env o.dynamicsObj
    (o.stack rolled.1.dropLast) ctrl.1 (some (o.stack rolled.2.dropLast)) (some ctrl.2)
  Except.ok (-costs.2 - costs.1.sum - entropy + mve.1)

/-- The amended mode-variant objective: the mode variational expectation
is subtracted and the policy entropy added, i.e.
`entropy − mode_var_exp − terminal − Σ running`. -/
def amendedModeElboSpec {T MF K IV E ND Opt : Type}
    (o : VTOModel T MF K IV E ND Opt) (start_state : T)
    (start_state_var : Option T) : Except PyErr ℚ := do
  let entropy := o.policy.entropy
  let rolled := ModeOpt.rollout_policy_in_dynamics o.policy o.dynamicsStep
    o.zeroLike start_state start_state_var
  let costs := o.expected_quadratic_costs rolled.1 rolled.2 o.policy
  let ctrl := o.policy.callFull
  let mve ← ModeOptDynamics.mode_variational_expectation o.env o.dynamicsObj
    (o.stack rolled.1.dropLast) ctrl.1 (some (o.stack rolled.2.dropLast)) (some ctrl.2)
  Except.ok (entropy - mve.1 - costs.2 - costs.1.sum)

/-- Concrete tensorflow operations with every tensor collapsed to a
rational scalar. -/
def opsW : TensorOps ℚ where
  bandPartLower := id
  transpose := id
  cholesky := id
  triangularSolve := fun _ b => b
  triangularSolveAdjoint := fun _ b => b
  tile := id
  matmulTransposeA := fun a b => a * b
  matmulTransposeB := fun a b => a * b
  adjoint := id
  add := fun a b => a + b
  sub := fun a b => a - b
  traceLast := id
  diag := id
  diagPart := id
  expandAndTile := id
  reshapeNQM := id
  einsum_nij_dji_nd := fun a b => a * b
  einsum_ig_nij_jh_ngh := fun a b c => a * b * c
  einsum_nqm_mz_nqz := fun a b => a * b
  outerLastTwo := fun a b => a * b
  square := fun a => a * a
  zerosNFF := 0

/-- Concrete gpflow capabilities over the collapsed tensors. -/
def gpEnvW : GPEnv ℚ Unit Unit Unit where
  ops := opsW
  expectation_k := fun _ _ _ => 0
  expectation_kZ := fun _ _ _ _ => 0
  expectation_kZ_kZ := fun _ _ _ _ => 0
  expectation_mf := fun _ _ _ => 0
  expectation_mf_mf := fun _ _ _ _ => 0
  expectation_mf_kZ := fun _ _ _ _ _ => 0
  Kuu := fun _ _ => 0
  isZeroMeanFn := fun _ => true

/-- A concrete gating GP. -/
def gpW : SVGPModel ℚ Unit Unit Unit where
  inducing_variable := ()
  kernel := ()
  q_mu := 0
  q_sqrt := 0
  mean_function := ()
  whiten := false
  predict_f := fun _ _ => (0, 0)
  likelihood_variational_expectations := fun a b c => a + b + c

/-- A concrete gating environment (operations chosen constant so that
closed evaluations reduce structurally). -/
def envW : GatingEnv ℚ Unit Unit Unit where
  gp := gpEnvW
  concatLast := fun a _ => a
  onesTimes := fun _ _ => 0
  reduceSum := fun _ => 0

/-- A concrete two-expert mixture model (experts tagged `10` and
`11`). -/
def moeW : MixtureOfSVGPExperts ℚ Unit Unit Unit ℕ where
  experts_list := [10, 11]
  gating_network := gpW

/-- A `ModeOptDynamics` object state with a gating network and desired
mode `0` assigned. -/
def dynObjW : ModeOptDynamicsObj ℚ Unit Unit Unit ℕ Unit Unit where
  trainable_model := none
  mosvgpe := none
  _desied_mode := some 0
  _desired_mode_dynamics := none
  dynamics_gp := none
  desired_mode_dynamics := none
  gating_gp := some gpW
  optimizer := none

/-- A `ModeOptDynamics` object state on which `set_desired_mode` can
run: `mosvgpe` assigned to the two-expert model. -/
def objW : ModeOptDynamicsObj ℚ Unit Unit Unit ℕ Unit Unit where
  trainable_model := none
  mosvgpe := some moeW
  _desied_mode := none
  _desired_mode_dynamics := none
  dynamics_gp := none
  desired_mode_dynamics := none
  gating_gp := none
  optimizer := none

/-- A concrete one-step policy with entropy `1`. -/
def policyW : PolicyObj ℚ where
  num_time_steps := 1
  callIdx := fun _ => (0, none)
  callFull := (0, 0)
  entropy := 1

/-- A concrete variational trajectory optimiser instance. -/
def otoW : VTOModel ℚ Unit Unit Unit ℕ Unit Unit where
  policy := policyW
  dynamicsStep := fun _ _ _ _ => (0, 0)
  dynamicsObj := dynObjW
  env := envW
  expected_quadratic_costs := fun _ _ _ => ([], 0)
  zeroLike := fun _ => 0
  stack := fun _ => 0

/-- A concrete external optimizer returning the variables unchanged. -/
def minimizeW : MinimizeFn ℚ := fun _ _ vs => (vs, 0)

/-- A concrete optimiser parameter state with the dynamics initially
trainable. -/
def stW : TrajOptimiserState where
  dynamicsParams := [5]
  dynamicsTrainable := true
  policyParams := [1]

/-- Concrete training-spec flags. -/
def specW : TrainingSpecFlags where
  max_iterations := 100
  monitor := false
  manager := false
  compile_loss_fn := true

/-- A concrete trajectory whose two timesteps have distinct controls. -/
def trajW : BaseTrajectory (List (List ℚ)) := ⟨[[0], [1]]⟩

/-! ## Theorems -/

/-- Both components of the controls-rollout loop output have exactly one
entry per consumed control mean. -/
theorem rolloutControlsGo_length {S C : Type}
    (dynamics : S → C → S → Option C → S × S) (cva : ℕ → Option C)
    (cs : List C) (t : ℕ) (lm lv : S) :
    (rolloutControlsGo dynamics cva cs t lm lv).1.length = cs.length ∧
      (rolloutControlsGo dynamics cva cs t lm lv).2.length = cs.length := by
  induction cs generalizing t lm lv with
  | nil => simp [rolloutControlsGo]
  | cons c cs ih =>
    simp only [rolloutControlsGo, List.length_cons]
    exact ⟨by simp [(ih _ _ _).1], by simp [(ih _ _ _).2]⟩

/-- Both components of the policy-rollout loop output have exactly one
entry per remaining timestep. -/
theorem rolloutPolicyGo_length {S C : Type}
    (dynamics : S → C → S → Option C → S × S) (policy : PolicyObj C)
    (n t : ℕ) (lm lv : S) :
    (rolloutPolicyGo dynamics policy n t lm lv).1.length = n ∧
      (rolloutPolicyGo dynamics policy n t lm lv).2.length = n := by
  induction n generalizing t lm lv with
  | zero => simp [rolloutPolicyGo]
  | succ n ih =>
    simp only [rolloutPolicyGo]
    exact ⟨by simp [(ih _ _ _).1], by simp [(ih _ _ _).2]⟩

/-- C3: for every horizon H ≥ 0, a rollout of a control sequence of
length H (`rollout_controls_in_dynamics`) or of a policy with H time
steps (`rollout_policy_in_dynamics`), started from one start-state
belief, returns state-mean and state-variance sequences with exactly
H+1 entries each, the first entry being the start state (and the
supplied-or-zero start variance). -/
theorem C3_rollout_trajectory_length {S C : Type}
    (dynamics : S → C → S → Option C → S × S) (zeroLike : S → S)
    (policy : PolicyObj C) (start_state : S) (control_means : List C)
    (start_state_var : Option S) (control_vars : Option (List C)) :
    (rollout_controls_in_dynamics dynamics zeroLike start_state control_means
        start_state_var control_vars).1.length = control_means.length + 1 ∧
    (rollout_controls_in_dynamics dynamics zeroLike start_state control_means
        start_state_var control_vars).2.length = control_means.length + 1 ∧
    (rollout_controls_in_dynamics dynamics zeroLike start_state control_means
        start_state_var control_vars).1.head? = some start_state ∧
    (rollout_controls_in_dynamics dynamics zeroLike start_state control_means
        start_state_var control_vars).2.head? =
      some (start_state_var.getD (zeroLike start_state)) ∧
    (rollout_policy_in_dynamics policy dynamics zeroLike start_state
        start_state_var).1.length = policy.num_time_steps + 1 ∧
    (rollout_policy_in_dynamics policy dynamics zeroLike start_state
        start_state_var).2.length = policy.num_time_steps + 1 ∧
    (rollout_policy_in_dynamics policy dynamics zeroLike start_state
        start_state_var).1.head? = some start_state ∧
    (rollout_policy_in_dynamics policy dynamics zeroLike start_state
        start_state_var).2.head? =
      some (start_state_var.getD (zeroLike start_state)) := by
  refine ⟨?_, ?_, rfl, rfl, ?_, ?_, rfl, rfl⟩
  · simp [rollout_controls_in_dynamics,
      (rolloutControlsGo_length dynamics _ control_means 0 start_state _).1]
  · simp [rollout_controls_in_dynamics,
      (rolloutControlsGo_length dynamics _ control_means 0 start_state _).2]
  · simp [rollout_policy_in_dynamics,
      (rolloutPolicyGo_length dynamics policy policy.num_time_steps 0 start_state _).1]
  · simp [rollout_policy_in_dynamics,
      (rolloutPolicyGo_length dynamics policy policy.num_time_steps 0 start_state _).2]

/-- C4: every construction of a `ModeOptDynamics` raises
`AttributeError`: `__init__` stores the model as `trainable_model` and
then calls `set_desired_mode`, which reads the never-assigned attribute
`mosvgpe`; no instance can be created. -/
theorem C4_init_attribute_error {T MF K IV E ND Opt : Type}
    (m : MixtureOfSVGPExperts T MF K IV E) (dm : ℤ) (nd : ND)
    (state_dim control_dim : ℕ) (opt : Opt) :
    @ModeOptDynamics.init T MF K IV E ND Opt m dm nd state_dim control_dim opt =
      Except.error (PyErr.attributeError "mosvgpe") := rfl

/-- C5: evaluating the plain variational optimiser's `elbo` always
raises `NameError`: the module binds `expected_quadratic_costs` but the
`elbo` body calls the unbound name `expected_costs`. -/
theorem C5_elbo_name_error {T MF K IV E ND Opt : Type}
    (o : VTOModel T MF K IV E ND Opt) (ss : T) (ssv : Option T) :
    VariationalTrajectoryOptimiser.elbo o ss ssv =
      Except.error (PyErr.nameError "expected_costs") ∧
    "expected_costs" ∉ variationalModuleNames ∧
    "expected_quadratic_costs" ∈ variationalModuleNames := by
  refine ⟨?_, by decide, by decide⟩
  simp only [VariationalTrajectoryOptimiser.elbo]
  rw [if_neg (by decide)]

/-- C6: `uncertain_conditional` signals "unsupported configuration"
(`NotImplementedError`) exactly when `full_cov=True` is requested —
before any computation, so the result for `full_cov=True` does not
depend on any capability of the environment — and for `full_cov=False`
it proceeds to a result for both the diagonal and the
full-output-covariance paths. -/
theorem C6_uncertain_conditional_full_cov {T MF K IV : Type}
    (env env2 : GPEnv T MF K IV) (xm xv : T) (iv : IV) (k : K)
    (qmu qsqrt : T) (mf : Option MF) (foc w : Bool) :
    (∀ fc : Bool,
      (∃ e, uncertain_conditional env xm xv iv k qmu qsqrt mf foc fc w =
        Except.error e) ↔ fc = true) ∧
    uncertain_conditional env xm xv iv k qmu qsqrt mf foc true w =
      Except.error (PyErr.notImplementedError
        "uncertain_conditional() currently does not support full_cov=True") ∧
    uncertain_conditional env xm xv iv k qmu qsqrt mf foc true w =
      uncertain_conditional env2 xm xv iv k qmu qsqrt mf foc true w ∧
    (∃ p, uncertain_conditional env xm xv iv k qmu qsqrt mf foc false w =
      Except.ok p) := by
  refine ⟨?_, rfl, rfl, ⟨_, rfl⟩⟩
  intro fc
  cases fc <;> simp [uncertain_conditional]

/-- C7 counterexample: on the concrete two-step trajectory `trajW`,
calling at timestep index 1 returns the full control sequence (not the
`(control_mean, control_var)` pair of timestep 1), identically to
calling at index 0; with `variance=True` it returns the pair
`(full sequence, None)`. -/
theorem C7_counterexample :
    BaseTrajectory.callTimestep trajW (some 1) false = Sum.inl trajW.controls ∧
    BaseTrajectory.callTimestep trajW (some 1) false ≠
      Sum.inl [[(1 : ℚ)]] ∧
    BaseTrajectory.callTimestep trajW (some 1) false =
      BaseTrajectory.callTimestep trajW (some 0) false ∧
    BaseTrajectory.callTimestep trajW (some 1) true =
      Sum.inr (trajW.controls, none) := by
  refine ⟨rfl, ?_, rfl, rfl⟩
  simp [BaseTrajectory.callTimestep, trajW]

/-- C7 amended: `BaseTrajectory.__call__` ignores the timestep index
entirely: with `variance=False` (the default) it returns the full
control-mean sequence, with `variance=True` the pair
`(full control means, None)`; the result never depends on the index. -/
theorem C7_call_ignores_timestep {CT : Type} (tr : BaseTrajectory CT)
    (t u : Option ℕ) (v : Bool) :
    BaseTrajectory.callTimestep tr t v =
      (if v then Sum.inr (tr.controls, none) else Sum.inl tr.controls) ∧
    BaseTrajectory.callTimestep tr t v = BaseTrajectory.callTimestep tr u v :=
  ⟨rfl, rfl⟩

/-- C9: `mode_variational_expectation` has no hidden state effect: a
successful call returns the object unchanged, and a second call on the
returned object with the same inputs and parameters returns the
identical scalar. -/
theorem C9_mode_variational_expectation_pure {T MF K IV E ND Opt : Type}
    (env : GatingEnv T MF K IV)
    (s s1 : ModeOptDynamicsObj T MF K IV E ND Opt) (sm cm : T)
    (sv cv : Option T) (v1 : ℚ)
    (h : ModeOptDynamics.mode_variational_expectation env s sm cm sv cv =
      Except.ok (v1, s1)) :
    s1 = s ∧
    ModeOptDynamics.mode_variational_expectation env s1 sm cm sv cv =
      Except.ok (v1, s1) := by
  unfold ModeOptDynamics.mode_variational_expectation at h
  cases hg : ModeOptDynamics.uncertain_predict_gating env s sm cm sv cv with
  | error e => rw [hg] at h; simp [Bind.bind, Except.bind] at h
  | ok gv =>
    rw [hg] at h
    cases hd : s._desied_mode with
    | none => rw [hd] at h; simp [Bind.bind, Except.bind, getattr] at h
    | some dm =>
      cases hgg : s.gating_gp with
      | none => rw [hd, hgg] at h; simp [Bind.bind, Except.bind, getattr] at h
      | some g =>
        rw [hd, hgg] at h
        simp only [Bind.bind, Except.bind, getattr] at h
        obtain ⟨hv, hs⟩ := by
          have := h
          simp only [Except.ok.injEq, Prod.mk.injEq] at this
          exact this
        subst hs
        refine ⟨rfl, ?_⟩
        unfold ModeOptDynamics.mode_variational_expectation
        rw [hg, hd, hgg]
        simp only [Bind.bind, Except.bind, getattr]
        rw [hv]

/-- C9 witness: a successful concrete call, unchanged state. -/
theorem C9_witness :
    dynObjW = dynObjW ∧
    ModeOptDynamics.mode_variational_expectation envW dynObjW 0 0 none none =
      Except.ok (0, dynObjW) :=
  C9_mode_variational_expectation_pure envW dynObjW dynObjW 0 0 none none 0 rfl

/-- C2 counterexample: with a two-expert model assigned,
`set_desired_mode(-1)` does not fail: the negative index passes the
`desired_mode < num_experts` assertion and Python's negative list
indexing silently selects the last expert (tag 11). -/
theorem C2_counterexample :
    ModeOptDynamics.set_desired_mode objW (-1) =
      Except.ok { objW with _desied_mode := some (-1),
                            _desired_mode_dynamics := some ⟨11, none⟩ } := rfl

/-- C2 amended: on an object whose `mosvgpe` is assigned, indices
`≥ num_experts` fail the assertion; indices `< -num_experts` raise
`IndexError` from the list lookup; but negative indices in
`[-num_experts, 0)` are silently accepted, selecting the expert at the
wrapped-around position. -/
theorem C2_amended_validation {T MF K IV E ND Opt : Type}
    (s : ModeOptDynamicsObj T MF K IV E ND Opt)
    (m : MixtureOfSVGPExperts T MF K IV E) (hm : s.mosvgpe = some m)
    (i : ℤ) :
    ((m.num_experts : ℤ) ≤ i →
      ModeOptDynamics.set_desired_mode s i = Except.error PyErr.assertionError) ∧
    (i < -(m.num_experts : ℤ) →
      ModeOptDynamics.set_desired_mode s i = Except.error PyErr.indexError) ∧
    (-(m.num_experts : ℤ) ≤ i → i < 0 → ∃ gp,
      pyGetElem m.experts_list i = some gp ∧
      ModeOptDynamics.set_desired_mode s i =
        Except.ok { s with _desied_mode := some i,
                           _desired_mode_dynamics := some ⟨gp, none⟩ }) := by
  unfold ModeOptDynamics.set_desired_mode
  rw [hm]
  simp only [getattr, Bind.bind, Except.bind]
  refine ⟨?_, ?_, ?_⟩
  · intro hge
    rw [if_neg (by omega)]
  · intro hlt
    have hnum : (0 : ℤ) ≤ (m.num_experts : ℤ) := by positivity
    rw [if_pos (by omega)]
    have : pyGetElem m.experts_list i = none := by
      unfold pyGetElem
      rw [if_neg (by omega), if_neg (by
        simp only [MixtureOfSVGPExperts.num_experts] at hlt
        omega)]
    rw [this]
  · intro hle hneg
    have hlen : -(m.experts_list.length : ℤ) ≤ i := by
      simpa [MixtureOfSVGPExperts.num_experts] using hle
    have hidx : ((m.experts_list.length : ℤ) + i).toNat < m.experts_list.length := by
      omega
    refine ⟨m.experts_list.get ⟨((m.experts_list.length : ℤ) + i).toNat, hidx⟩, ?_, ?_⟩
    · unfold pyGetElem
      rw [if_neg (by omega), if_pos hlen, List.get?_eq_get hidx]
    · rw [if_pos (by
        simp only [MixtureOfSVGPExperts.num_experts]
        omega)]
      unfold pyGetElem
      rw [if_neg (by omega), if_pos hlen, List.get?_eq_get hidx]

/-- C2 witness for the amended validation: the assertion rejects index
2 on the two-expert model, and index −5 raises `IndexError`. -/
theorem C2_amended_witness :
    ModeOptDynamics.set_desired_mode objW 2 =
      Except.error PyErr.assertionError ∧
    ModeOptDynamics.set_desired_mode objW (-5) =
      Except.error PyErr.indexError :=
  ⟨(C2_amended_validation objW moeW rfl 2).1 (by decide),
   (C2_amended_validation objW moeW rfl (-5)).2.1 (by decide)⟩

/-- C8: both `optimise` bodies freeze the dynamics before invoking the
external optimizer and hand it only the policy's variables: the
dynamics parameters of the resulting state equal the input ones, the
dynamics end up non-trainable, and the result only depends on the
external optimizer's behaviour on states whose dynamics are frozen. -/
theorem C8_optimise_freezes_dynamics {T MF K IV E ND Opt R : Type}
    (o : VTOModel T MF K IV E ND Opt) (minimize : MinimizeFn R)
    (st : TrajOptimiserState) (ss : T) (spec : TrainingSpecFlags)
    (cached : Option (Unit → Except PyErr ℚ))
    (objective : Unit → Except PyErr ℚ) :
    ((VariationalTrajectoryOptimiser.optimise o minimize st ss spec).1.dynamicsParams =
        st.dynamicsParams ∧
      (VariationalTrajectoryOptimiser.optimise o minimize st ss spec).1.dynamicsTrainable =
        false) ∧
    ((ExplorativeTrajectoryOptimiser.optimise cached objective minimize st spec).1.dynamicsParams =
        st.dynamicsParams ∧
      (ExplorativeTrajectoryOptimiser.optimise cached objective minimize st spec).1.dynamicsTrainable =
        false) ∧
    (∀ minimize2 : MinimizeFn R,
      (∀ loss s2 vs, s2.dynamicsTrainable = false → minimize loss s2 vs = minimize2 loss s2 vs) →
      VariationalTrajectoryOptimiser.optimise o minimize st ss spec =
        VariationalTrajectoryOptimiser.optimise o minimize2 st ss spec ∧
      ExplorativeTrajectoryOptimiser.optimise cached objective minimize st spec =
        ExplorativeTrajectoryOptimiser.optimise cached objective minimize2 st spec) := by
  refine ⟨⟨rfl, rfl⟩, ⟨rfl, rfl⟩, ?_⟩
  intro minimize2 hagree
  constructor
  · simp only [VariationalTrajectoryOptimiser.optimise, gpfSetTrainable]
    rw [hagree _ _ _ rfl]
  · simp only [ExplorativeTrajectoryOptimiser.optimise, gpfSetTrainable]
    rw [hagree _ _ _ rfl]

/-- C8 witness: the frame property and external-optimizer
irrelevance-beyond-frozen-states, at a concrete instance. -/
theorem C8_witness :
    (VariationalTrajectoryOptimiser.optimise otoW minimizeW stW 0 specW).1.dynamicsParams =
      stW.dynamicsParams ∧
    VariationalTrajectoryOptimiser.optimise otoW minimizeW stW 0 specW =
      VariationalTrajectoryOptimiser.optimise otoW minimizeW stW 0 specW :=
  ⟨(C8_optimise_freezes_dynamics otoW minimizeW stW 0 specW none (fun _ => Except.ok 0)).1.1,
   ((C8_optimise_freezes_dynamics otoW minimizeW stW 0 specW none
      (fun _ => Except.ok 0)).2.2 minimizeW (fun _ _ _ _ => rfl)).1⟩

/-- C1 counterexample: on the concrete optimiser `otoW` (entropy 1,
zero costs, zero mode variational expectation), the code's mode-variant
ELBO evaluates to `1` while the spec's claimed formula evaluates to
`−1`: the claimed combination "−terminal − Σ running − entropy + mode
term" does not match the code. -/
theorem C1_counterexample :
    ModeVariationalTrajectoryOptimiser.elbo otoW 0 none = Except.ok 1 ∧
    claimedModeElbo otoW 0 none = Except.ok (-1) ∧
    ModeVariationalTrajectoryOptimiser.elbo otoW 0 none ≠
      claimedModeElbo otoW 0 none := by
  have h1 : ModeVariationalTrajectoryOptimiser.elbo otoW 0 none =
      Except.ok (-(0 : ℚ) - 0 - ([] : List ℚ).sum + 1) := rfl
  have h2 : claimedModeElbo otoW 0 none =
      Except.ok (-(0 : ℚ) - ([] : List ℚ).sum - 1 + 0) := rfl
  refine ⟨?_, ?_, ?_⟩
  · rw [h1]; norm_num
  · rw [h2]; norm_num
  · rw [h1, h2]
    simp only [ne_eq, Except.ok.injEq, List.sum_nil]
    norm_num

/-- C1 amended: the mode-variant ELBO equals
`entropy − mode_var_exp − terminal − Σ running` (the mode variational
expectation is subtracted and the entropy added); both variants' training
losses are the negation of the respective ELBO; and the base variant's
ELBO never evaluates (NameError on `expected_costs`). -/
theorem C1_amended_objective {T MF K IV E ND Opt : Type}
    (o : VTOModel T MF K IV E ND Opt) (ss : T) (ssv : Option T) (cf : Bool) :
    ModeVariationalTrajectoryOptimiser.elbo o ss ssv =
      amendedModeElboSpec o ss ssv ∧
    ModeVariationalTrajectoryOptimiser.build_training_loss o ss ssv cf () =
      (ModeVariationalTrajectoryOptimiser.elbo o ss ssv).map (fun e => -e) ∧
    VariationalTrajectoryOptimiser.build_training_loss o ss ssv cf () =
      (VariationalTrajectoryOptimiser.elbo o ss ssv).map (fun e => -e) ∧
    VariationalTrajectoryOptimiser.elbo o ss ssv =
      Except.error (PyErr.nameError "expected_costs") := by
  refine ⟨?_, rfl, rfl, (C5_elbo_name_error o ss ssv).1⟩
  unfold ModeVariationalTrajectoryOptimiser.elbo amendedModeElboSpec
  cases hm : ModeOptDynamics.mode_variational_expectation o.env o.dynamicsObj
      (o.stack (ModeOpt.rollout_policy_in_dynamics o.policy o.dynamicsStep
        o.zeroLike ss ssv).1.dropLast) o.policy.callFull.1
      (some (o.stack (ModeOpt.rollout_policy_in_dynamics o.policy o.dynamicsStep
        o.zeroLike ss ssv).2.dropLast)) (some o.policy.callFull.2) with
  | error e => simp [Bind.bind, Except.bind, hm]
  | ok v =>
    simp only [Bind.bind, Except.bind, hm, Except.ok.injEq]
    ring

/-- The axis permutation moves the inducing axis next to the query
axis. -/
theorem tfMoveLeadingAxis_eq (d0 : ℕ) (mid : List ℕ) (dl : ℕ) :
    tfMoveLeadingAxis (d0 :: (mid ++ [dl])) = mid ++ [d0, dl] := by
  cases mid with
  | nil => rfl
  | cons a as =>
    show ((a :: as) ++ [dl]).dropLast ++ [d0, ((a :: as) ++ [dl]).getLastD 0] =
      (a :: as) ++ [d0, dl]
    rw [List.dropLast_concat, List.getLastD_eq_getLast?, List.getLast?_concat]
    rfl

/-- A constraint with a leading `...` and two named dimensions unifies
exactly the trailing two sizes. -/
theorem checkConstraint_leading_two (env : List (DimName × ℕ)) (mid : List ℕ)
    (x y : ℕ) (A B : DimName) :
    checkConstraint env ⟨mid ++ [x, y], [A, B], true⟩ = bindDims env [A, B] [x, y] := by
  unfold checkConstraint
  simp only [if_true, List.length_append, List.length_cons, List.length_nil]
  rw [if_pos (by omega)]
  have h1 : mid.length + (0 + 1 + 1) - (0 + 1 + 1) = mid.length := by omega
  rw [h1]
  congr 1
  exact List.drop_left mid [x, y]

/-- An exact-rank constraint with two named dimensions. -/
theorem checkConstraint_exact_two (env : List (DimName × ℕ))
    (x y : ℕ) (A B : DimName) :
    checkConstraint env ⟨[x, y], [A, B], false⟩ = bindDims env [A, B] [x, y] := rfl

/-- An exact-rank constraint with three named dimensions. -/
theorem checkConstraint_exact_three (env : List (DimName × ℕ))
    (x y z : ℕ) (A B C : DimName) :
    checkConstraint env ⟨[x, y, z], [A, B, C], false⟩ =
      bindDims env [A, B, C] [x, y, z] := rfl

set_option maxHeartbeats 3200000 in
/-- C10: the covariance-conditional shape validation errs exactly when
the named trailing dimensions disagree: with `Km1 = [M1, lead1..., N1]`,
`Km2 = [M2, lead2..., N2]`, `Lm = [L1, L2]`, `K12 = [lead12..., Ka, Kb]`,
`f = [F, R]` and optional `q_sqrt` of rank 2 or 3, the check passes iff
the inducing counts, query counts and output counts all agree — for
arbitrary leading batch dimensions, which are never unified; any
disagreement in the trailing dimensions is an error, never a silent
broadcast. -/
theorem C10_shape_validation (lead1 lead2 lead12 : List ℕ)
    (m1 n1 m2 n2 l1 l2 k12a k12b mf r : ℕ) :
    (base_covariance_conditional_check (m1 :: (lead1 ++ [n1])) (m2 :: (lead2 ++ [n2]))
        [l1, l2] (lead12 ++ [k12a, k12b]) [mf, r] none = Except.ok () ↔
      (m2 = m1 ∧ l1 = m1 ∧ l2 = m1 ∧ k12a = n1 ∧ k12b = n2 ∧ mf = m1)) ∧
    (∀ qm qr : ℕ,
      base_covariance_conditional_check (m1 :: (lead1 ++ [n1])) (m2 :: (lead2 ++ [n2]))
        [l1, l2] (lead12 ++ [k12a, k12b]) [mf, r] (some [qm, qr]) = Except.ok () ↔
      (m2 = m1 ∧ l1 = m1 ∧ l2 = m1 ∧ k12a = n1 ∧ k12b = n2 ∧ mf = m1 ∧
        qm = m1 ∧ qr = r)) ∧
    (∀ q1 q2 q3 : ℕ,
      base_covariance_conditional_check (m1 :: (lead1 ++ [n1])) (m2 :: (lead2 ++ [n2]))
        [l1, l2] (lead12 ++ [k12a, k12b]) [mf, r] (some [q1, q2, q3]) = Except.ok () ↔
      (m2 = m1 ∧ l1 = m1 ∧ l2 = m1 ∧ k12a = n1 ∧ k12b = n2 ∧ mf = m1 ∧
        q1 = r ∧ q2 = m1 ∧ q3 = m1)) := by
  refine ⟨?_, ?_, ?_⟩
  · unfold base_covariance_conditional_check
    rw [tfMoveLeadingAxis_eq, tfMoveLeadingAxis_eq]
    simp only [List.append_nil, assertShapes, checkConstraint_leading_two,
      checkConstraint_exact_two, bindDims, bindDim]
    constructor
    · intro h
      by_cases h1 : m2 = m1
      · subst h1
        by_cases h2 : l1 = m2
        · subst h2
          by_cases h3 : l2 = l1
          · subst h3
            by_cases h4 : k12a = n1
            · subst h4
              by_cases h5 : k12b = n2
              · subst h5
                by_cases h6 : mf = l2
                · subst h6
                  exact ⟨rfl, rfl, rfl, rfl, rfl, rfl⟩
                · simp [envLookup, h6] at h
              · simp [envLookup, h5] at h
            · simp [envLookup, h4] at h
          · simp [envLookup, h3] at h
        · simp [envLookup, h2] at h
      · simp [envLookup, h1] at h
    · rintro ⟨rfl, rfl, rfl, rfl, rfl, rfl⟩
      simp [envLookup]
  · intro qm qr
    unfold base_covariance_conditional_check
    rw [tfMoveLeadingAxis_eq, tfMoveLeadingAxis_eq]
    simp only [List.length_cons, List.length_nil, Nat.reduceAdd, reduceIte]
    simp only [List.cons_append, List.nil_append, assertShapes,
      checkConstraint_leading_two, checkConstraint_exact_two, bindDims, bindDim]
    constructor
    · intro h
      by_cases h1 : m2 = m1
      · subst h1
        by_cases h2 : l1 = m2
        · subst h2
          by_cases h3 : l2 = l1
          · subst h3
            by_cases h4 : k12a = n1
            · subst h4
              by_cases h5 : k12b = n2
              · subst h5
                by_cases h6 : mf = l2
                · subst h6
                  by_cases h7 : qm = mf
                  · subst h7
                    by_cases h8 : qr = r
                    · subst h8
                      exact ⟨rfl, rfl, rfl, rfl, rfl, rfl, rfl, rfl⟩
                    · simp [envLookup, h8] at h
                  · simp [envLookup, h7] at h
                · simp [envLookup, h6] at h
              · simp [envLookup, h5] at h
            · simp [envLookup, h4] at h
          · simp [envLookup, h3] at h
        · simp [envLookup, h2] at h
      · simp [envLookup, h1] at h
    · rintro ⟨rfl, rfl, rfl, rfl, rfl, rfl, rfl, rfl⟩
      simp [envLookup]
  · intro q1 q2 q3
    unfold base_covariance_conditional_check
    rw [tfMoveLeadingAxis_eq, tfMoveLeadingAxis_eq]
    simp only [List.length_cons, List.length_nil, Nat.reduceAdd, reduceIte]
    simp only [List.cons_append, List.nil_append, assertShapes,
      checkConstraint_leading_two, checkConstraint_exact_two,
      checkConstraint_exact_three, bindDims, bindDim]
    constructor
    · intro h
      by_cases h1 : m2 = m1
      · subst h1
        by_cases h2 : l1 = m2
        · subst h2
          by_cases h3 : l2 = l1
          · subst h3
            by_cases h4 : k12a = n1
            · subst h4
              by_cases h5 : k12b = n2
              · subst h5
                by_cases h6 : mf = l2
                · subst h6
                  by_cases h7 : q1 = r
                  · subst h7
                    by_cases h8 : q2 = mf
                    · subst h8
                      by_cases h9 : q3 = q2
                      · subst h9
                        exact ⟨rfl, rfl, rfl, rfl, rfl, rfl, rfl, rfl, rfl⟩
                      · simp [envLookup, h9] at h
                    · simp [envLookup, h8] at h
                  · simp [envLookup, h7] at h
                · simp [envLookup, h6] at h
              · simp [envLookup, h5] at h
            · simp [envLookup, h4] at h
          · simp [envLookup, h3] at h
        · simp [envLookup, h2] at h
      · simp [envLookup, h1] at h
    · rintro ⟨rfl, rfl, rfl, rfl, rfl, rfl, rfl, rfl, rfl⟩
      simp [envLookup]

end ModeOpt
